import Mathlib

/-!
Verification of the decoder core declared in
`vk_video_decoder/libs/VkVideoDecoder/VkVideoDecoder.h`.

The header contains the inline implementations of `NvVkDecodeFrameData`
(resize, GetCommandBuffer, size, deinit), the `VkVideoDecoder` constructor,
`GetCurrentFrameData`, and the default arguments of `Create`; those are
embedded directly from the source.  The behaviour of the operations whose
bodies live outside the header (slot acquisition of
`DecodePictureWithParameters`, the parameter-set cache behind
`UpdatePictureParameters`, the bounded reference-counted pool behind
`VulkanBitstreamBufferPool`, `GetBitstreamBuffer`, `StartVideoSequence`) is
modelled from the specification, and each such definition carries a doc
comment saying so.
-/

/-- A Vulkan command-buffer handle, abstracted as a numeric id. -/
abbrev VkCommandBuffer := Nat

/-- Value of VK_COMMAND_POOL_CREATE_RESET_COMMAND_BUFFER_BIT. -/
def VK_COMMAND_POOL_CREATE_RESET_COMMAND_BUFFER_BIT : Nat := 2

/-- The C++ conversion from a signed 32-bit integer to uint32_t. -/
def uint32OfInt (i : Int) : Nat := (i % (2 ^ 32 : Int)).toNat

/-- The observable configuration of a Vulkan command pool: the creation
flags and the queue family index it is bound to
(VkCommandPoolCreateInfo in NvVkDecodeFrameData::resize). -/
structure VkCommandPool where
  flags : Nat
  queueFamilyIndex : Nat
deriving DecidableEq

/-- The part of VulkanDeviceContext consumed by this header: the advertised
video-decode queue family index, the number of decode queues and the
default decode queue index. -/
structure VulkanDeviceContext where
  videoDecodeQueueFamilyIdx : Int
  videoDecodeNumQueues : Int
  videoDecodeDefaultQueueIndex : Int
deriving DecidableEq

/-- State of NvVkDecodeFrameData (VkVideoDecoder.h:60): the device context,
the optional command pool (null before the first resize) and the vector of
command buffers. -/
structure NvVkDecodeFrameData where
  vkDevCtx : VulkanDeviceContext
  videoCommandPool : Option VkCommandPool
  commandBuffers : List VkCommandBuffer
deriving DecidableEq

/-- NvVkDecodeFrameData constructor (VkVideoDecoder.h:63). -/
def NvVkDecodeFrameData.init (vkDevCtx : VulkanDeviceContext) : NvVkDecodeFrameData :=
  { vkDevCtx := vkDevCtx, videoCommandPool := none, commandBuffers := [] }

/-- NvVkDecodeFrameData::deinit (VkVideoDecoder.h:68): frees the command
buffers and destroys the pool when one exists; the vector itself is not
cleared by the source. -/
def NvVkDecodeFrameData.deinit (s : NvVkDecodeFrameData) : NvVkDecodeFrameData :=
  match s.videoCommandPool with
  | some _ => { s with videoCommandPool := none }
  | none => s

/-- NvVkDecodeFrameData::resize (VkVideoDecoder.h:82): when no command pool
exists yet, creates one bound to the video-decode queue family of the
device context, allocates maxDecodeFramesCount primary command buffers and
returns that count; when the pool already exists it allocates nothing and
returns the current command-buffer count.  Device calls are modelled as
succeeding; freshly allocated buffers are numbered from zero. -/
def NvVkDecodeFrameData.resize (s : NvVkDecodeFrameData) (maxDecodeFramesCount : Nat) :
    Nat × NvVkDecodeFrameData :=
  match s.videoCommandPool with
  | none =>
    let pool : VkCommandPool :=
      { flags := VK_COMMAND_POOL_CREATE_RESET_COMMAND_BUFFER_BIT,
        queueFamilyIndex := uint32OfInt s.vkDevCtx.videoDecodeQueueFamilyIdx }
    (maxDecodeFramesCount,
     { s with videoCommandPool := some pool,
              commandBuffers := List.range maxDecodeFramesCount })
  | some _ => (s.commandBuffers.length, s)

/-- NvVkDecodeFrameData::GetCommandBuffer (VkVideoDecoder.h:120): returns
the command buffer stored at the given slot (the source asserts the slot
is in range). -/
def NvVkDecodeFrameData.GetCommandBuffer (s : NvVkDecodeFrameData) (slot : Nat) :
    VkCommandBuffer :=
  s.commandBuffers.getD slot 0

/-- NvVkDecodeFrameData::size (VkVideoDecoder.h:125). -/
def NvVkDecodeFrameData.size (s : NvVkDecodeFrameData) : Nat :=
  s.commandBuffers.length

/-- NvVkDecodeFrameDataSlot (VkVideoDecoder.h:53). -/
structure NvVkDecodeFrameDataSlot where
  slot : Nat
  commandBuffer : VkCommandBuffer
deriving DecidableEq

/-- The fields of VkVideoDecoder initialised by its constructor
(VkVideoDecoder.h:193-236) that the header itself reads or writes. -/
structure VkVideoDecoder where
  vkDevCtx : VulkanDeviceContext
  defaultVideoQueueIndx : Int
  refCount : Int
  numDecodeImagesInFlight : Int
  numDecodeImagesToPreallocate : Int
  numDecodeSurfaces : Nat
  maxDecodeFramesCount : Nat
  decodeFramesData : NvVkDecodeFrameData
  decodePicCount : Int
  useImageArray : Bool
  useImageViewArray : Bool
  useSeparateOutputImages : Bool
  useLinearOutput : Bool
  resetDecoder : Bool
  dumpDecodeData : Bool
  numBitstreamBuffersToPreallocate : Int
  maxStreamBufferSize : Nat
deriving DecidableEq

/-- The private VkVideoDecoder constructor (VkVideoDecoder.h:193-236),
including the queue-index selection of lines 226-234: a negative requested
index selects the default decode queue index of the device context; a
non-negative index is reduced modulo the queue count when more than one
decode queue exists; otherwise index 0 is used.  The C++ operator on
signed integers is truncated remainder, hence Int.tmod. -/
def VkVideoDecoder.construct (vkDevCtx : VulkanDeviceContext) (videoQueueIndx : Int)
    (useLinearOutput : Bool) (numDecodeImagesInFlight : Int)
    (numDecodeImagesToPreallocate : Int) (numBitstreamBuffersToPreallocate : Int) :
    VkVideoDecoder :=
  let selectedQueueIndx : Int :=
    if videoQueueIndx < 0 then
      vkDevCtx.videoDecodeDefaultQueueIndex
    else if 1 < vkDevCtx.videoDecodeNumQueues then
      Int.tmod videoQueueIndx vkDevCtx.videoDecodeNumQueues
    else
      0
  { vkDevCtx := vkDevCtx
    defaultVideoQueueIndx := selectedQueueIndx
    refCount := 0
    numDecodeImagesInFlight := numDecodeImagesInFlight
    numDecodeImagesToPreallocate := numDecodeImagesToPreallocate
    numDecodeSurfaces := 0
    maxDecodeFramesCount := 0
    decodeFramesData := NvVkDecodeFrameData.init vkDevCtx
    decodePicCount := 0
    useImageArray := false
    useImageViewArray := false
    useSeparateOutputImages := useLinearOutput
    useLinearOutput := useLinearOutput
    resetDecoder := true
    dumpDecodeData := false
    numBitstreamBuffersToPreallocate := numBitstreamBuffersToPreallocate
    maxStreamBufferSize := 0 }

/-- VkVideoDecoder::Create invoked with none of the optional parameters
overridden (VkVideoDecoder.h:148-155): videoQueueIndx 0, useLinearOutput
false, numDecodeImagesInFlight 8, numDecodeImagesToPreallocate -1,
numBitstreamBuffersToPreallocate 8. -/
def VkVideoDecoder.CreateWithDefaults (vkDevCtx : VulkanDeviceContext) : VkVideoDecoder :=
  VkVideoDecoder.construct vkDevCtx 0 false 8 (-1) 8

/-- Modelled from the spec: the code consuming m_numDecodeImagesToPreallocate
is not under src; the spec (and the source comment at VkVideoDecoder.h:153)
states that a value of -1 means preallocate the maximum feasible count. -/
def numDecodeImagesToPreallocateCount (numDecodeImagesToPreallocate : Int)
    (maxFeasibleCount : Nat) : Nat :=
  if numDecodeImagesToPreallocate = -1 then maxFeasibleCount
  else numDecodeImagesToPreallocate.toNat

/-- VkVideoDecoder::GetCurrentFrameData (VkVideoDecoder.h:248-256): when the
slot id is below the slot-table size, fills the output slot structure and
returns the slot id; otherwise returns -1 leaving the output and the
decoder untouched. -/
def VkVideoDecoder.GetCurrentFrameData (dec : VkVideoDecoder) (slotId : Nat)
    (frameDataSlot : NvVkDecodeFrameDataSlot) :
    Int × NvVkDecodeFrameDataSlot × VkVideoDecoder :=
  if slotId < dec.decodeFramesData.size then
    ((slotId : Int),
     { slot := slotId,
       commandBuffer := dec.decodeFramesData.GetCommandBuffer slotId },
     dec)
  else
    (-1, frameDataSlot, dec)

/-! Spec-modelled part: decode-slot acquisition (claim surface of
DecodePictureWithParameters, declared at VkVideoDecoder.h:183). -/

/-- Result of a picture submission as seen by the caller. -/
inductive DecodeSlotResult where
  | ok (slot : Nat)
  | NoFreeSlot
deriving DecidableEq

/-- In-use marks of the decode slots, one Bool per slot. -/
structure DecodeSlotState where
  slotInUse : List Bool
deriving DecidableEq

/-- Finds the first free slot and marks it in use, returning its index and
the updated marks; none when every slot is in use. -/
def markFirstFree : List Bool → Option (Nat × List Bool)
  | [] => none
  | false :: rest => some (0, true :: rest)
  | true :: rest => (markFirstFree rest).map (fun p => (p.1 + 1, true :: p.2))

/-- Modelled from the spec: the body of
VkVideoDecoder::DecodePictureWithParameters is not under src (only its
declaration at VkVideoDecoder.h:183).  Per the spec it acquires a free
decode slot and fails with NoFreeSlot when all maxDecodeFramesCount slots
are in use, leaving the state unchanged rather than blocking. -/
def DecodePictureWithParameters (s : DecodeSlotState) :
    DecodeSlotResult × DecodeSlotState :=
  match markFirstFree s.slotInUse with
  | some (i, l) => (DecodeSlotResult.ok i, { slotInUse := l })
  | none => (DecodeSlotResult.NoFreeSlot, s)

/-- Modelled from the spec: completion of the picture occupying slot i
releases that slot back to the table. -/
def completeSlot (s : DecodeSlotState) (i : Nat) : DecodeSlotState :=
  { slotInUse := s.slotInUse.set i false }

/-- An event of the submission/completion history. -/
inductive SlotOp where
  | submit
  | complete (i : Nat)

/-- One step of the slot-table history. -/
def stepSlot (s : DecodeSlotState) : SlotOp → DecodeSlotState
  | SlotOp.submit => (DecodePictureWithParameters s).2
  | SlotOp.complete i => completeSlot s i

/-- Runs a history of submissions and completions. -/
def runSlotOps (s : DecodeSlotState) : List SlotOp → DecodeSlotState
  | [] => s
  | op :: ops => runSlotOps (stepSlot s op) ops

/-- The slot table right after startSequence accepted an in-flight depth of
maxDecodeFramesCount: every slot free. -/
def initSlotState (maxDecodeFramesCount : Nat) : DecodeSlotState :=
  { slotInUse := List.replicate maxDecodeFramesCount false }

/-- Number of slots currently marked in use. -/
def inUseCount (s : DecodeSlotState) : Nat := s.slotInUse.count true

/-! Spec-modelled part: the picture-parameter-set cache behind
UpdatePictureParameters (declared at VkVideoDecoder.h:177-178, state held
in m_currentPictureParameters at VkVideoDecoder.h:275). -/

/-- A picture that is queued or in flight, together with the parameter set
recorded for it at submission time (parameter sets are named by numeric
ids). -/
structure DecodedPicture where
  pictureId : Nat
  params : Nat
deriving DecidableEq

/-- State of the parameter-set cache: the active set, an optional set whose
activation is deferred, and the pictures still queued or in flight. -/
structure PictureParametersCache where
  current : Nat
  pending : Option Nat
  inFlight : List DecodedPicture
deriving DecidableEq

/-- Whether an update took effect immediately or was deferred; deferral is
not a failure and the operation cannot fail. -/
inductive UpdateParamsResult where
  | activated
  | deferred
deriving DecidableEq

/-- Modelled from the spec: the body of
VkVideoDecoder::UpdatePictureParameters is not under src (only its
declaration at VkVideoDecoder.h:177).  Per the spec it replaces the active
set only if no picture currently queued or in flight references the
previous one; otherwise it queues the new set to become active once all
such pictures complete and reports the deferral. -/
def UpdatePictureParameters (c : PictureParametersCache) (newSet : Nat) :
    UpdateParamsResult × PictureParametersCache :=
  if c.inFlight.any (fun p => p.params == c.current) then
    (UpdateParamsResult.deferred, { c with pending := some newSet })
  else
    (UpdateParamsResult.activated, { c with current := newSet, pending := none })

/-- The active parameter set. -/
def getCurrent (c : PictureParametersCache) : Nat := c.current

/-- Modelled from the spec: submitting a picture records the currently
active parameter set for it. -/
def submitPicture (c : PictureParametersCache) (pid : Nat) : PictureParametersCache :=
  { c with inFlight := c.inFlight ++ [{ pictureId := pid, params := c.current }] }

/-- Modelled from the spec: observing the completion of a picture removes
it from the in-flight list, and a deferred set becomes active once no
remaining picture references the previously active set. -/
def completePicture (c : PictureParametersCache) (pid : Nat) : PictureParametersCache :=
  let rest := c.inFlight.filter (fun p => p.pictureId != pid)
  match c.pending with
  | some newSet =>
    if rest.any (fun p => p.params == c.current) then
      { c with inFlight := rest }
    else
      { current := newSet, pending := none, inFlight := rest }
  | none => { c with inFlight := rest }

/-! Spec-modelled part: the bounded reference-counted pool behind
VulkanBitstreamBufferPool (VkVideoDecoder.h:58 instantiates the pool
template with element type VulkanBitstreamBufferImpl and capacity 64; the
template body is not under src). -/

/-- A pooled object: its id, its allocated byte size and its reference
count (zero means free, on the free list). -/
structure PoolObj where
  id : Nat
  size : Nat
  refCount : Nat
deriving DecidableEq

/-- A bounded reference-counted pool: a fixed capacity and the live
objects. -/
structure RefCountedPool where
  capacity : Nat
  objects : List PoolObj
deriving DecidableEq

/-- Result of an acquire call. -/
inductive AcquireResult where
  | ok (id : Nat)
  | PoolExhausted
deriving DecidableEq

/-- Scans the objects for a free one that is large enough; on success
returns its id and the objects with that one re-referenced. -/
def tryReuse (sizeHint : Nat) : List PoolObj → Option (Nat × List PoolObj)
  | [] => none
  | o :: rest =>
    if o.refCount = 0 ∧ sizeHint ≤ o.size then
      some (o.id, { o with refCount := 1 } :: rest)
    else
      (tryReuse sizeHint rest).map (fun p => (p.1, o :: p.2))

/-- Modelled from the spec: the pool template instantiated at
VkVideoDecoder.h:58 is not under src.  Per the spec, acquire returns a
reference-counted object either reused from the free list (an existing
object that is large enough and unreferenced) or newly constructed while
fewer objects than the fixed capacity exist; it fails with PoolExhausted
when capacity is reached and no object is free. -/
def RefCountedPool.acquire (p : RefCountedPool) (sizeHint : Nat) :
    AcquireResult × RefCountedPool :=
  match tryReuse sizeHint p.objects with
  | some (i, objs) => (AcquireResult.ok i, { p with objects := objs })
  | none =>
    if p.objects.length < p.capacity then
      (AcquireResult.ok p.objects.length,
       { p with objects :=
           p.objects ++ [{ id := p.objects.length, size := sizeHint, refCount := 1 }] })
    else
      (AcquireResult.PoolExhausted, p)

/-- Modelled from the spec: dropping a reference; when the last reference
drops the object stays in the pool on the free list rather than being
freed. -/
def RefCountedPool.releaseRef (p : RefCountedPool) (id : Nat) : RefCountedPool :=
  { p with objects :=
      p.objects.map (fun o => if o.id = id then { o with refCount := o.refCount - 1 } else o) }

/-- An event of the pool history. -/
inductive PoolOp where
  | acq (sizeHint : Nat)
  | rel (id : Nat)

/-- One step of the pool history. -/
def stepPool (p : RefCountedPool) : PoolOp → RefCountedPool
  | PoolOp.acq sizeHint => (p.acquire sizeHint).2
  | PoolOp.rel id => p.releaseRef id

/-- Runs a history of acquisitions and reference drops. -/
def runPoolOps (p : RefCountedPool) : List PoolOp → RefCountedPool
  | [] => p
  | op :: ops => runPoolOps (stepPool p op) ops

/-- The bitstream-buffer pool as instantiated at VkVideoDecoder.h:58:
capacity 64, initially empty. -/
def VulkanBitstreamBufferPool.empty : RefCountedPool :=
  { capacity := 64, objects := [] }

/-- A capacity-64 pool whose 64 objects are all referenced, used as a
concrete exhaustion scenario. -/
def poolFull64 : RefCountedPool :=
  { capacity := 64,
    objects := (List.range 64).map (fun i => { id := i, size := 0, refCount := 1 }) }

/-! Spec-modelled part: bitstream-buffer acquisition geometry
(GetBitstreamBuffer, declared at VkVideoDecoder.h:185-190). -/

/-- Rounds x up to the next multiple of a. -/
def alignUp (x a : Nat) : Nat := ((x + a - 1) / a) * a

/-- Modelled from the spec: the body of VkVideoDecoder::GetBitstreamBuffer
is not under src (only its declaration at VkVideoDecoder.h:185-190).  Per
the spec it rounds the requested size up to the size alignment and places
the buffer at an offset aligned to the offset alignment; the result is the
pair of the returned offset and the returned size. -/
def GetBitstreamBuffer (baseOffset requestedSize offsetAlignment sizeAlignment : Nat) :
    Nat × Nat :=
  (alignUp baseOffset offsetAlignment, alignUp requestedSize sizeAlignment)

/-! Spec-modelled part: StartVideoSequence (declared at
VkVideoDecoder.h:175). -/

/-- The negotiated video format fields that determine session
compatibility. -/
structure VideoFormat where
  codedWidth : Nat
  codedHeight : Nat
  bitDepth : Nat
  chromaSubsampling : Nat
  codecOperation : Nat
deriving DecidableEq

/-- A hardware decode session: an identity and the format it was created
for. -/
structure VideoSession where
  sessionId : Nat
  format : VideoFormat
deriving DecidableEq

/-- Decoder state touched by sequence start: the optional session, the
slot table, and a counter giving fresh session identities. -/
structure SeqState where
  videoSession : Option VideoSession
  decodeFramesData : NvVkDecodeFrameData
  nextSessionId : Nat
deriving DecidableEq

/-- Modelled from the spec: the body of VkVideoDecoder::StartVideoSequence
is not under src (only its declaration at VkVideoDecoder.h:175).  Per the
spec it reuses an existing compatible session; otherwise it tears the
session down, creates a new one for the format and resizes the slot table
to the in-flight depth; it returns the accepted depth reported by the
resize of the slot table. -/
def StartVideoSequence (s : SeqState) (fmt : VideoFormat) (depth : Nat) :
    Nat × SeqState :=
  match s.videoSession with
  | some sess =>
    if sess.format = fmt then
      ((s.decodeFramesData.resize depth).1,
       { s with decodeFramesData := (s.decodeFramesData.resize depth).2 })
    else
      (((s.decodeFramesData.deinit).resize depth).1,
       { videoSession := some { sessionId := s.nextSessionId, format := fmt },
         decodeFramesData := ((s.decodeFramesData.deinit).resize depth).2,
         nextSessionId := s.nextSessionId + 1 })
  | none =>
    ((s.decodeFramesData.resize depth).1,
     { videoSession := some { sessionId := s.nextSessionId, format := fmt },
       decodeFramesData := (s.decodeFramesData.resize depth).2,
       nextSessionId := s.nextSessionId + 1 })

/-! Helper lemmas. -/

/-- A concrete device context used in witnesses: decode queue family 3,
two decode queues, default queue index 0. -/
def ctxA : VulkanDeviceContext :=
  { videoDecodeQueueFamilyIdx := 3, videoDecodeNumQueues := 2,
    videoDecodeDefaultQueueIndex := 0 }

theorem resize_pool_isSome (fd : NvVkDecodeFrameData) (n : Nat) :
    ((fd.resize n).2).videoCommandPool.isSome := by
  cases h : fd.videoCommandPool <;> simp [NvVkDecodeFrameData.resize, h]

theorem resize_of_pool_some (fd : NvVkDecodeFrameData) (n : Nat) (pool : VkCommandPool)
    (hpool : fd.videoCommandPool = some pool) :
    fd.resize n = (fd.commandBuffers.length, fd) := by
  unfold NvVkDecodeFrameData.resize
  rw [hpool]

/-- C6: every command pool created by the slot-table resize is bound to
exactly the queue family index advertised by the device context as
supporting video decode (NvVkDecodeFrameData::resize,
VkVideoDecoder.h:87-96); resize offers no way to select a different queue
family. -/
theorem resize_uses_video_decode_queue_family (fd : NvVkDecodeFrameData) (n : Nat)
    (pool : VkCommandPool)
    (hnew : fd.videoCommandPool = none)
    (hvalid : 0 ≤ fd.vkDevCtx.videoDecodeQueueFamilyIdx)
    (hrange : fd.vkDevCtx.videoDecodeQueueFamilyIdx < 2 ^ 32)
    (hpool : ((fd.resize n).2).videoCommandPool = some pool) :
    (pool.queueFamilyIndex : Int) = fd.vkDevCtx.videoDecodeQueueFamilyIdx := by
  simp only [NvVkDecodeFrameData.resize, hnew] at hpool
  have hq : pool.queueFamilyIndex = uint32OfInt fd.vkDevCtx.videoDecodeQueueFamilyIdx := by
    cases hpool
    rfl
  rw [hq]
  unfold uint32OfInt
  rw [Int.emod_eq_of_lt hvalid hrange]
  exact Int.toNat_of_nonneg hvalid

/-- C6 witness: for decode queue family 3, a fresh resize of depth 4 binds
the created pool to family 3. -/
theorem resize_uses_video_decode_queue_family_witness :
    (NvVkDecodeFrameData.init ctxA).videoCommandPool = none ∧
    0 ≤ (NvVkDecodeFrameData.init ctxA).vkDevCtx.videoDecodeQueueFamilyIdx ∧
    (NvVkDecodeFrameData.init ctxA).vkDevCtx.videoDecodeQueueFamilyIdx < 2 ^ 32 ∧
    (((NvVkDecodeFrameData.init ctxA).resize 4).2).videoCommandPool =
      some { flags := 2, queueFamilyIndex := 3 } ∧
    (({ flags := 2, queueFamilyIndex := 3 } : VkCommandPool).queueFamilyIndex : Int) =
      (NvVkDecodeFrameData.init ctxA).vkDevCtx.videoDecodeQueueFamilyIdx :=
  ⟨rfl, by decide, by decide, by decide,
   resize_uses_video_decode_queue_family (NvVkDecodeFrameData.init ctxA) 4
     { flags := 2, queueFamilyIndex := 3 } rfl (by decide) (by decide) (by decide)⟩

/-- C7: the queue index selected at decoder construction
(VkVideoDecoder.h:226-234): a negative requested index selects the default
decode queue index of the device context; a non-negative requested index
is reduced modulo the queue count when more than one decode queue exists;
a non-negative requested index with exactly one decode queue selects
index 0. -/
theorem constructor_queue_index_selection (ctx : VulkanDeviceContext)
    (videoQueueIndx : Int) (lin : Bool) (a b c : Int) :
    (videoQueueIndx < 0 →
      (VkVideoDecoder.construct ctx videoQueueIndx lin a b c).defaultVideoQueueIndx =
        ctx.videoDecodeDefaultQueueIndex) ∧
    (0 ≤ videoQueueIndx → 1 < ctx.videoDecodeNumQueues →
      (VkVideoDecoder.construct ctx videoQueueIndx lin a b c).defaultVideoQueueIndx =
        videoQueueIndx % ctx.videoDecodeNumQueues) ∧
    (0 ≤ videoQueueIndx → ctx.videoDecodeNumQueues = 1 →
      (VkVideoDecoder.construct ctx videoQueueIndx lin a b c).defaultVideoQueueIndx = 0) := by
  refine ⟨fun hneg => ?_, fun hpos hmany => ?_, fun hpos hone => ?_⟩
  · simp [VkVideoDecoder.construct, hneg]
  · simp only [VkVideoDecoder.construct]
    rw [if_neg (by omega), if_pos hmany]
    exact Int.tmod_eq_emod hpos (by omega)
  · simp only [VkVideoDecoder.construct]
    rw [if_neg (by omega), if_neg (by omega)]

/-- C7 witness: on a two-queue device, requested index 7 selects 7 mod 2. -/
theorem constructor_queue_index_selection_witness :
    0 ≤ (7 : Int) ∧ 1 < ctxA.videoDecodeNumQueues ∧
    (VkVideoDecoder.construct ctxA 7 false 8 (-1) 8).defaultVideoQueueIndx =
      7 % ctxA.videoDecodeNumQueues :=
  ⟨by decide, by decide,
   (constructor_queue_index_selection ctxA 7 false 8 (-1) 8).2.1 (by decide) (by decide)⟩

/-- C8: Create without overriding the optional parameters configures the
decoder with numDecodeImagesInFlight 8 and numDecodeImagesToPreallocate -1
(VkVideoDecoder.h:148-155), and a preallocation count of -1 denotes the
maximum feasible count. -/
theorem Create_default_in_flight_and_preallocate (vkDevCtx : VulkanDeviceContext)
    (maxFeasibleCount : Nat) :
    (VkVideoDecoder.CreateWithDefaults vkDevCtx).numDecodeImagesInFlight = 8 ∧
    (VkVideoDecoder.CreateWithDefaults vkDevCtx).numDecodeImagesToPreallocate = -1 ∧
    numDecodeImagesToPreallocateCount
      (VkVideoDecoder.CreateWithDefaults vkDevCtx).numDecodeImagesToPreallocate
      maxFeasibleCount = maxFeasibleCount :=
  ⟨rfl, rfl, rfl⟩

/-- C9: the two output-policy flags written by the constructor are equal,
both being initialised from the single useLinearOutput argument
(VkVideoDecoder.h:215-216). -/
theorem useSeparateOutputImages_eq_useLinearOutput (ctx : VulkanDeviceContext)
    (videoQueueIndx : Int) (useLinearOutput : Bool) (a b c : Int) :
    (VkVideoDecoder.construct ctx videoQueueIndx useLinearOutput a b c).useSeparateOutputImages =
      (VkVideoDecoder.construct ctx videoQueueIndx useLinearOutput a b c).useLinearOutput :=
  rfl

/-- C10: GetCurrentFrameData (VkVideoDecoder.h:248-256) returns -1 and
leaves the output and the decoder unchanged when the slot id is not below
the slot-table size; otherwise it returns the slot id and fills the output
with the slot id and the command buffer stored at that index. -/
theorem GetCurrentFrameData_in_range_or_fails (dec : VkVideoDecoder) (slotId : Nat)
    (frameDataSlot : NvVkDecodeFrameDataSlot) :
    (dec.decodeFramesData.size ≤ slotId →
      dec.GetCurrentFrameData slotId frameDataSlot = (-1, frameDataSlot, dec)) ∧
    (slotId < dec.decodeFramesData.size →
      dec.GetCurrentFrameData slotId frameDataSlot =
        ((slotId : Int),
         { slot := slotId,
           commandBuffer := dec.decodeFramesData.GetCommandBuffer slotId },
         dec)) := by
  constructor
  · intro h
    unfold VkVideoDecoder.GetCurrentFrameData
    rw [if_neg (by omega)]
  · intro h
    unfold VkVideoDecoder.GetCurrentFrameData
    rw [if_pos h]

/-- C10 witness: on a freshly created decoder with an empty slot table,
slot id 0 is rejected with -1 and neither the output nor the decoder
changes. -/
theorem GetCurrentFrameData_in_range_or_fails_witness :
    (VkVideoDecoder.CreateWithDefaults ctxA).decodeFramesData.size ≤ 0 ∧
    (VkVideoDecoder.CreateWithDefaults ctxA).GetCurrentFrameData 0
        { slot := 7, commandBuffer := 9 } =
      (-1, { slot := 7, commandBuffer := 9 }, VkVideoDecoder.CreateWithDefaults ctxA) :=
  ⟨by decide,
   (GetCurrentFrameData_in_range_or_fails (VkVideoDecoder.CreateWithDefaults ctxA) 0
     { slot := 7, commandBuffer := 9 }).1 (by decide)⟩

/-! Alignment lemmas for C5. -/

theorem alignUp_mod (x a : Nat) : alignUp x a % a = 0 := by
  unfold alignUp
  exact Nat.mul_mod_left _ _

theorem le_alignUp (x a : Nat) (ha : 0 < a) : x ≤ alignUp x a := by
  unfold alignUp
  have h1 : (x + a - 1) / a * a + (x + a - 1) % a = x + a - 1 := by
    rw [Nat.mul_comm]
    exact Nat.div_add_mod _ _
  have h2 : (x + a - 1) % a < a := Nat.mod_lt _ ha
  obtain ⟨m, hm⟩ : ∃ m, (x + a - 1) / a * a = m := ⟨_, rfl⟩
  rw [hm] at h1 ⊢
  omega

theorem alignUp_lt (x a : Nat) (ha : 0 < a) : alignUp x a < x + a := by
  unfold alignUp
  have h1 : (x + a - 1) / a * a + (x + a - 1) % a = x + a - 1 := by
    rw [Nat.mul_comm]
    exact Nat.div_add_mod _ _
  obtain ⟨m, hm⟩ : ∃ m, (x + a - 1) / a * a = m := ⟨_, rfl⟩
  rw [hm] at h1 ⊢
  omega

/-- C5: GetBitstreamBuffer returns an offset that is a multiple of the
offset alignment and a size that is a multiple of the size alignment and
is the next such multiple at or above the requested size; in particular a
request of size 100 with offset alignment 32 and size alignment 16 yields
size 112 at an offset that is a multiple of 32. -/
theorem GetBitstreamBuffer_alignment (baseOffset requestedSize oAlign sAlign : Nat)
    (hoa : 0 < oAlign) (hsa : 0 < sAlign) :
    (GetBitstreamBuffer baseOffset requestedSize oAlign sAlign).1 % oAlign = 0 ∧
    (GetBitstreamBuffer baseOffset requestedSize oAlign sAlign).2 % sAlign = 0 ∧
    requestedSize ≤ (GetBitstreamBuffer baseOffset requestedSize oAlign sAlign).2 ∧
    (GetBitstreamBuffer baseOffset requestedSize oAlign sAlign).2 < requestedSize + sAlign ∧
    (GetBitstreamBuffer baseOffset 100 32 16).2 = 112 ∧
    (GetBitstreamBuffer baseOffset 100 32 16).1 % 32 = 0 :=
  ⟨alignUp_mod baseOffset oAlign,
   alignUp_mod requestedSize sAlign,
   le_alignUp requestedSize sAlign hsa,
   alignUp_lt requestedSize sAlign hsa,
   rfl,
   alignUp_mod baseOffset 32⟩

/-- C5 witness: the scenario at base offset 7, request size 100, offset
alignment 32, size alignment 16. -/
theorem GetBitstreamBuffer_alignment_witness :
    0 < 32 ∧ 0 < 16 ∧
    ((GetBitstreamBuffer 7 100 32 16).1 % 32 = 0 ∧
     (GetBitstreamBuffer 7 100 32 16).2 % 16 = 0 ∧
     100 ≤ (GetBitstreamBuffer 7 100 32 16).2 ∧
     (GetBitstreamBuffer 7 100 32 16).2 < 100 + 16 ∧
     (GetBitstreamBuffer 7 100 32 16).2 = 112 ∧
     (GetBitstreamBuffer 7 100 32 16).1 % 32 = 0) :=
  ⟨by decide, by decide,
   GetBitstreamBuffer_alignment 7 100 32 16 (by decide) (by decide)⟩

/-! Pool lemmas for C3. -/

theorem tryReuse_length (sizeHint : Nat) :
    ∀ (l : List PoolObj) (i : Nat) (l' : List PoolObj),
      tryReuse sizeHint l = some (i, l') → l'.length = l.length := by
  intro l
  induction l with
  | nil => intro i l' h; simp [tryReuse] at h
  | cons o rest ih =>
    intro i l' h
    by_cases hc : o.refCount = 0 ∧ sizeHint ≤ o.size
    · rw [tryReuse, if_pos hc] at h
      cases h
      simp
    · rw [tryReuse, if_neg hc] at h
      rw [Option.map_eq_some'] at h
      obtain ⟨q, hq, heq⟩ := h
      obtain ⟨j, l2⟩ := q
      cases heq
      simp [ih j l2 hq]

theorem tryReuse_none_of_busy (sizeHint : Nat) :
    ∀ l : List PoolObj, (∀ o ∈ l, o.refCount ≠ 0) → tryReuse sizeHint l = none := by
  intro l
  induction l with
  | nil => intro _; rfl
  | cons o rest ih =>
    intro hbusy
    rw [tryReuse, if_neg (by simp [hbusy o (by simp)])]
    rw [ih (fun q hq => hbusy q (by simp [hq]))]
    rfl

theorem acquire_length_le (p : RefCountedPool) (sizeHint : Nat)
    (hle : p.objects.length ≤ p.capacity) :
    ((p.acquire sizeHint).2).objects.length ≤ ((p.acquire sizeHint).2).capacity := by
  unfold RefCountedPool.acquire
  cases h : tryReuse sizeHint p.objects with
  | some q =>
    obtain ⟨i, objs⟩ := q
    simpa [tryReuse_length sizeHint p.objects i objs h] using hle
  | none =>
    by_cases hlt : p.objects.length < p.capacity
    · simp [hlt]
      omega
    · simp [hlt]
      exact hle

theorem stepPool_invariant (p : RefCountedPool) (op : PoolOp)
    (hle : p.objects.length ≤ p.capacity) :
    (stepPool p op).objects.length ≤ (stepPool p op).capacity := by
  cases op with
  | acq sizeHint => exact acquire_length_le p sizeHint hle
  | rel id => simpa [stepPool, RefCountedPool.releaseRef] using hle

theorem runPoolOps_invariant (ops : List PoolOp) :
    ∀ p : RefCountedPool, p.objects.length ≤ p.capacity →
      (runPoolOps p ops).objects.length ≤ (runPoolOps p ops).capacity := by
  induction ops with
  | nil => intro p h; exact h
  | cons op ops ih =>
    intro p h
    exact ih (stepPool p op) (stepPool_invariant p op h)

theorem acquire_capacity (p : RefCountedPool) (sizeHint : Nat) :
    ((p.acquire sizeHint).2).capacity = p.capacity := by
  unfold RefCountedPool.acquire
  cases h : tryReuse sizeHint p.objects with
  | some q => obtain ⟨i, objs⟩ := q; rfl
  | none =>
    by_cases hlt : p.objects.length < p.capacity <;> simp [hlt]

theorem runPoolOps_capacity (ops : List PoolOp) :
    ∀ p : RefCountedPool, (runPoolOps p ops).capacity = p.capacity := by
  induction ops with
  | nil => intro p; rfl
  | cons op ops ih =>
    intro p
    rw [runPoolOps, ih]
    cases op with
    | acq sizeHint => exact acquire_capacity p sizeHint
    | rel id => rfl

/-- C3: the bitstream buffer pool (capacity 64 per VkVideoDecoder.h:58)
never holds more than 64 live objects along any history starting from the
empty pool; with 64 objects all referenced, acquire fails with
PoolExhausted and leaves the pool unchanged; and acquire grows the pool
only while fewer objects than the capacity exist. -/
theorem VulkanBitstreamBufferPool_bounded (ops : List PoolOp) (p : RefCountedPool)
    (sizeHint : Nat)
    (hcap : p.capacity = 64) (hfull : p.objects.length = 64)
    (hbusy : ∀ o ∈ p.objects, o.refCount ≠ 0) :
    (runPoolOps VulkanBitstreamBufferPool.empty ops).objects.length ≤ 64 ∧
    p.acquire sizeHint = (AcquireResult.PoolExhausted, p) ∧
    (∀ (q : RefCountedPool) (sh : Nat),
      q.objects.length < ((q.acquire sh).2).objects.length →
      q.objects.length < q.capacity) := by
  refine ⟨?_, ?_, ?_⟩
  · have h1 := runPoolOps_invariant ops VulkanBitstreamBufferPool.empty (by simp [VulkanBitstreamBufferPool.empty])
    have h2 := runPoolOps_capacity ops VulkanBitstreamBufferPool.empty
    rw [h2] at h1
    simpa [VulkanBitstreamBufferPool.empty] using h1
  · unfold RefCountedPool.acquire
    rw [tryReuse_none_of_busy sizeHint p.objects hbusy]
    rw [if_neg (by omega)]
  · intro q sh hgrow
    by_contra hge
    unfold RefCountedPool.acquire at hgrow
    cases h : tryReuse sh q.objects with
    | some r =>
      obtain ⟨i, objs⟩ := r
      rw [h] at hgrow
      simp at hgrow
      rw [tryReuse_length sh q.objects i objs h] at hgrow
      omega
    | none =>
      rw [h] at hgrow
      rw [if_neg hge] at hgrow
      simp at hgrow

/-- C3 witness: with all 64 objects of a full pool referenced, an acquire
of size hint 5 fails with PoolExhausted and the pool is unchanged. -/
theorem VulkanBitstreamBufferPool_bounded_witness :
    poolFull64.capacity = 64 ∧ poolFull64.objects.length = 64 ∧
    (∀ o ∈ poolFull64.objects, o.refCount ≠ 0) ∧
    poolFull64.acquire 5 = (AcquireResult.PoolExhausted, poolFull64) :=
  ⟨by decide, by decide, by decide,
   (VulkanBitstreamBufferPool_bounded [] poolFull64 5 (by decide) (by decide)
     (by decide)).2.1⟩

/-- C2: an UpdatePictureParameters call made while a picture P that
references the previous parameter set is still queued or in flight does
not replace the active set: the update is reported as deferred (not a
failure), the recorded parameters of every queued picture (P included) are
unaltered, getCurrent keeps returning the prior set during the deferral
window, and the new set becomes current only once the completion of P (the
last picture referencing the prior set) is observed. -/
theorem UpdatePictureParameters_deferral (c : PictureParametersCache)
    (P : DecodedPicture) (newSet : Nat)
    (hmem : P ∈ c.inFlight) (href : P.params = c.current)
    (honly : ∀ q ∈ c.inFlight, q.params = c.current → q.pictureId = P.pictureId) :
    (UpdatePictureParameters c newSet).1 = UpdateParamsResult.deferred ∧
    ((UpdatePictureParameters c newSet).2).inFlight = c.inFlight ∧
    getCurrent (UpdatePictureParameters c newSet).2 = getCurrent c ∧
    getCurrent (completePicture (UpdatePictureParameters c newSet).2 P.pictureId) =
      newSet := by
  have hany : c.inFlight.any (fun p => p.params == c.current) = true := by
    rw [List.any_eq_true]
    exact ⟨P, hmem, by simp [href]⟩
  have hupd : UpdatePictureParameters c newSet =
      (UpdateParamsResult.deferred, { c with pending := some newSet }) := by
    unfold UpdatePictureParameters
    rw [if_pos hany]
  refine ⟨by rw [hupd], by rw [hupd], by rw [hupd]; rfl, ?_⟩
  rw [hupd]
  unfold completePicture
  have hrest : (({ c with pending := some newSet } :
      PictureParametersCache).inFlight.filter
        (fun p => p.pictureId != P.pictureId)).any
      (fun p => p.params == ({ c with pending := some newSet } :
        PictureParametersCache).current) = false := by
    rw [List.any_eq_false]
    intro q hq
    rw [List.mem_filter] at hq
    obtain ⟨hqmem, hqid⟩ := hq
    simp only [bne_iff_ne, ne_eq] at hqid
    simp only [beq_iff_eq]
    intro hqp
    exact hqid (honly q hqmem hqp)
  simp only [hrest]
  rfl

/-- C2 witness: cache with active set 1 and one queued picture recorded
with set 1; updating to set 2 defers, keeps the queued picture and the
active set unchanged, and activates set 2 once that picture completes. -/
theorem UpdatePictureParameters_deferral_witness :
    ({ pictureId := 0, params := 1 } : DecodedPicture) ∈
      ({ current := 1, pending := none,
         inFlight := [{ pictureId := 0, params := 1 }] } :
        PictureParametersCache).inFlight ∧
    ({ pictureId := 0, params := 1 } : DecodedPicture).params =
      ({ current := 1, pending := none,
         inFlight := [{ pictureId := 0, params := 1 }] } :
        PictureParametersCache).current ∧
    (UpdatePictureParameters
        { current := 1, pending := none,
          inFlight := [{ pictureId := 0, params := 1 }] } 2).1 =
      UpdateParamsResult.deferred ∧
    getCurrent (UpdatePictureParameters
        { current := 1, pending := none,
          inFlight := [{ pictureId := 0, params := 1 }] } 2).2 = 1 ∧
    getCurrent (completePicture (UpdatePictureParameters
        { current := 1, pending := none,
          inFlight := [{ pictureId := 0, params := 1 }] } 2).2 0) = 2 := by
  have h := UpdatePictureParameters_deferral
    { current := 1, pending := none, inFlight := [{ pictureId := 0, params := 1 }] }
    { pictureId := 0, params := 1 } 2 (by decide) (by decide) (by decide)
  exact ⟨by decide, by decide, h.1, h.2.2.1, h.2.2.2⟩

/-! Slot-table lemmas for C1. -/

theorem markFirstFree_length :
    ∀ (l : List Bool) (i : Nat) (l' : List Bool),
      markFirstFree l = some (i, l') → l'.length = l.length := by
  intro l
  induction l with
  | nil => intro i l' h; simp [markFirstFree] at h
  | cons b rest ih =>
    intro i l' h
    cases b with
    | false =>
      rw [markFirstFree] at h
      cases h
      simp
    | true =>
      rw [markFirstFree, Option.map_eq_some'] at h
      obtain ⟨q, hq, heq⟩ := h
      obtain ⟨j, l2⟩ := q
      cases heq
      simp [ih j l2 hq]

theorem markFirstFree_all_true (n : Nat) :
    markFirstFree (List.replicate n true) = none := by
  induction n with
  | zero => rfl
  | succ n ih => rw [List.replicate_succ, markFirstFree, ih]; rfl

theorem markFirstFree_fill (a : Nat) (l : List Bool) :
    markFirstFree (List.replicate a true ++ false :: l) =
      some (a, List.replicate (a + 1) true ++ l) := by
  induction a with
  | zero => rfl
  | succ a ih =>
    show markFirstFree (true :: (List.replicate a true ++ false :: l)) = _
    rw [markFirstFree, ih]
    rfl

theorem runSlotOps_length (ops : List SlotOp) :
    ∀ s : DecodeSlotState, (runSlotOps s ops).slotInUse.length = s.slotInUse.length := by
  induction ops with
  | nil => intro s; rfl
  | cons op ops ih =>
    intro s
    rw [runSlotOps, ih]
    cases op with
    | submit =>
      show ((DecodePictureWithParameters s).2).slotInUse.length = s.slotInUse.length
      unfold DecodePictureWithParameters
      cases h : markFirstFree s.slotInUse with
      | some q =>
        obtain ⟨i, l⟩ := q
        exact markFirstFree_length s.slotInUse i l h
      | none => rfl
    | complete i =>
      show (completeSlot s i).slotInUse.length = s.slotInUse.length
      unfold completeSlot
      simp

theorem runSlotOps_submit_fill (b : Nat) :
    ∀ a : Nat,
      runSlotOps { slotInUse := List.replicate a true ++ List.replicate b false }
        (List.replicate b SlotOp.submit) =
      { slotInUse := List.replicate (a + b) true } := by
  induction b with
  | zero => intro a; simp [runSlotOps]
  | succ b ih =>
    intro a
    show runSlotOps { slotInUse := List.replicate a true ++ List.replicate (b + 1) false }
      (SlotOp.submit :: List.replicate b SlotOp.submit) = _
    rw [runSlotOps]
    have hstep :
        stepSlot { slotInUse := List.replicate a true ++ List.replicate (b + 1) false }
          SlotOp.submit =
        { slotInUse := List.replicate (a + 1) true ++ List.replicate b false } := by
      have hl : List.replicate a true ++ List.replicate (b + 1) false =
          List.replicate a true ++ false :: List.replicate b false := rfl
      show (DecodePictureWithParameters
        { slotInUse := List.replicate a true ++ List.replicate (b + 1) false }).2 = _
      simp only [DecodePictureWithParameters, hl, markFirstFree_fill]
    rw [hstep, ih (a + 1)]
    rw [show a + 1 + b = a + (b + 1) from by omega]

/-- C1: along every submission/completion history from a slot table of
accepted in-flight depth D, at most D decode slots are simultaneously
marked in use; and after D submissions with no completion observed, the
next submission returns NoFreeSlot with the state unchanged rather than
blocking or corrupting it. -/
theorem DecodePictureWithParameters_backpressure (D : Nat) (ops : List SlotOp) :
    inUseCount (runSlotOps (initSlotState D) ops) ≤ D ∧
    DecodePictureWithParameters
        (runSlotOps (initSlotState D) (List.replicate D SlotOp.submit)) =
      (DecodeSlotResult.NoFreeSlot,
       runSlotOps (initSlotState D) (List.replicate D SlotOp.submit)) := by
  constructor
  · have h1 := runSlotOps_length ops (initSlotState D)
    have h2 : (initSlotState D).slotInUse.length = D := by
      simp [initSlotState]
    calc inUseCount (runSlotOps (initSlotState D) ops)
        ≤ (runSlotOps (initSlotState D) ops).slotInUse.length :=
          List.count_le_length _ _
      _ = D := by rw [h1, h2]
  · have hfull : runSlotOps (initSlotState D) (List.replicate D SlotOp.submit) =
        { slotInUse := List.replicate D true } := by
      have := runSlotOps_submit_fill D 0
      simpa [initSlotState] using this
    rw [hfull]
    unfold DecodePictureWithParameters
    rw [show (({ slotInUse := List.replicate D true } : DecodeSlotState).slotInUse) =
      List.replicate D true from rfl]
    rw [markFirstFree_all_true]

/-! Sequence-start lemmas for C4. -/

theorem StartVideoSequence_session_format (s : SeqState) (fmt : VideoFormat) (depth : Nat) :
    ∃ ss : VideoSession, ((StartVideoSequence s fmt depth).2).videoSession = some ss ∧
      ss.format = fmt := by
  cases h : s.videoSession with
  | none =>
    refine ⟨{ sessionId := s.nextSessionId, format := fmt }, ?_, rfl⟩
    simp [StartVideoSequence, h]
  | some sess =>
    by_cases hf : sess.format = fmt
    · refine ⟨sess, ?_, hf⟩
      simp [StartVideoSequence, h, hf]
    · refine ⟨{ sessionId := s.nextSessionId, format := fmt }, ?_, rfl⟩
      simp [StartVideoSequence, h, hf]

theorem StartVideoSequence_pool_isSome (s : SeqState) (fmt : VideoFormat) (depth : Nat) :
    ((StartVideoSequence s fmt depth).2).decodeFramesData.videoCommandPool.isSome := by
  cases h : s.videoSession with
  | none =>
    have := resize_pool_isSome s.decodeFramesData depth
    simpa [StartVideoSequence, h] using this
  | some sess =>
    by_cases hf : sess.format = fmt
    · have := resize_pool_isSome s.decodeFramesData depth
      simpa [StartVideoSequence, h, hf] using this
    · have := resize_pool_isSome s.decodeFramesData.deinit depth
      simpa [StartVideoSequence, h, hf] using this

theorem StartVideoSequence_noop_of_compatible (t : SeqState) (fmt : VideoFormat)
    (depth : Nat) (ss : VideoSession)
    (hss : t.videoSession = some ss) (hssf : ss.format = fmt)
    (hsome : t.decodeFramesData.videoCommandPool.isSome) :
    (StartVideoSequence t fmt depth).2 = t := by
  obtain ⟨pool, hp⟩ := Option.isSome_iff_exists.mp hsome
  obtain ⟨vs, dfd, nid⟩ := t
  have hss2 : vs = some ss := hss
  have hp2 : dfd.videoCommandPool = some pool := hp
  subst hss2
  simp [StartVideoSequence, hssf, resize_of_pool_some dfd depth pool hp2]

/-- C4: a second StartVideoSequence with the same format immediately after
a first one is a no-op (the session and the slot table, hence the identity
of the decode slots, are preserved); and a second resize of the slot table
while the command pool already exists allocates nothing and returns the
existing command-buffer count (NvVkDecodeFrameData::resize,
VkVideoDecoder.h:112-115). -/
theorem StartVideoSequence_same_format_noop (s : SeqState) (fmt : VideoFormat)
    (depth : Nat) (fd : NvVkDecodeFrameData) (pool : VkCommandPool)
    (hpool : fd.videoCommandPool = some pool) :
    (StartVideoSequence (StartVideoSequence s fmt depth).2 fmt depth).2 =
      (StartVideoSequence s fmt depth).2 ∧
    fd.resize depth = (fd.commandBuffers.length, fd) := by
  constructor
  · obtain ⟨ss, hss, hssf⟩ := StartVideoSequence_session_format s fmt depth
    exact StartVideoSequence_noop_of_compatible (StartVideoSequence s fmt depth).2 fmt
      depth ss hss hssf (StartVideoSequence_pool_isSome s fmt depth)
  · exact resize_of_pool_some fd depth pool hpool

/-- C4 witness: a sequence started from the fresh state with a concrete
format, restarted with the same format, and a resize on a slot table whose
pool exists. -/
theorem StartVideoSequence_same_format_noop_witness :
    (((NvVkDecodeFrameData.init ctxA).resize 4).2).videoCommandPool =
      some { flags := 2, queueFamilyIndex := 3 } ∧
    (StartVideoSequence
        (StartVideoSequence
          { videoSession := none, decodeFramesData := NvVkDecodeFrameData.init ctxA,
            nextSessionId := 0 }
          { codedWidth := 1920, codedHeight := 1080, bitDepth := 8,
            chromaSubsampling := 1, codecOperation := 1 } 8).2
        { codedWidth := 1920, codedHeight := 1080, bitDepth := 8,
          chromaSubsampling := 1, codecOperation := 1 } 8).2 =
      (StartVideoSequence
        { videoSession := none, decodeFramesData := NvVkDecodeFrameData.init ctxA,
          nextSessionId := 0 }
        { codedWidth := 1920, codedHeight := 1080, bitDepth := 8,
          chromaSubsampling := 1, codecOperation := 1 } 8).2 ∧
    ((NvVkDecodeFrameData.init ctxA).resize 4).2.resize 8 =
      ((((NvVkDecodeFrameData.init ctxA).resize 4).2).commandBuffers.length,
       ((NvVkDecodeFrameData.init ctxA).resize 4).2) := by
  have h := StartVideoSequence_same_format_noop
    { videoSession := none, decodeFramesData := NvVkDecodeFrameData.init ctxA,
      nextSessionId := 0 }
    { codedWidth := 1920, codedHeight := 1080, bitDepth := 8,
      chromaSubsampling := 1, codecOperation := 1 } 8
    (((NvVkDecodeFrameData.init ctxA).resize 4).2)
    { flags := 2, queueFamilyIndex := 3 } (by decide)
  exact ⟨by decide, h.1, h.2⟩
